import Mathlib

/-!
Verification of the RabbitMQ publish/connect/retry/acknowledge core of the
retro-games-catalog repository.

The development shallowly embeds the broker-facing logic of the two process
roles:

* the message-producer service (`src/message-producer/app.js`), and
* the backend API service (`src/backend/server.js`).

Network effects are modelled by oracle parameters: a `ConnectOutcome` says
whether an attempted `amqp.connect`/`createChannel`/`assertQueue` sequence
succeeds, and a `SendOutcome` says what the transport-level
`channel.sendToQueue` call does (accepts the message, reports a full buffer
by returning a falsy value, or throws).  Module-level mutable state
(`rabbitConnection`, `rabbitChannel`) is threaded explicitly as `ConnState`,
and side effects (publishes performed, `setTimeout` timers scheduled) are
returned as data.
-/

/-- A JavaScript value used as a message payload.  Numbers are modelled as
integers, which covers every payload the repository builds (`gameId`
identifiers plus string fields). -/
inductive Json where
  | null : Json
  | bool : Bool → Json
  | num : Int → Json
  | str : String → Json
  | arr : List Json → Json
  | obj : List (String × Json) → Json

/-- Escaping of a single character inside a JSON string literal, following
`JSON.stringify` for the quote, backslash and common control characters. -/
def jsonEscapeChar (c : Char) : String :=
  if c = '"' then "\\\""
  else if c = '\\' then "\\\\"
  else if c = '\n' then "\\n"
  else if c = '\t' then "\\t"
  else if c = '\r' then "\\r"
  else String.singleton c

/-- Escape the body of a JSON string literal. -/
def jsonEscape (s : String) : String :=
  String.join (s.data.map jsonEscapeChar)

/-- A JSON string literal with quotes. -/
def jsonStr (s : String) : String :=
  "\"" ++ jsonEscape s ++ "\""

mutual

/-- `JSON.stringify` on the modelled values. -/
def Json.stringify : Json → String
  | .null => "null"
  | .bool b => if b then "true" else "false"
  | .num n => toString n
  | .str s => jsonStr s
  | .arr xs => "[" ++ stringifyElems xs ++ "]"
  | .obj fs => "\x7b" ++ stringifyFields fs ++ "\x7d"

/-- Comma-separated serialization of array elements. -/
def stringifyElems : List Json → String
  | [] => ""
  | [x] => Json.stringify x
  | x :: xs => Json.stringify x ++ "," ++ stringifyElems xs

/-- Comma-separated serialization of object fields. -/
def stringifyFields : List (String × Json) → String
  | [] => ""
  | [f] => jsonStr f.1 ++ ":" ++ Json.stringify f.2
  | f :: fs => jsonStr f.1 ++ ":" ++ Json.stringify f.2 ++ "," ++ stringifyFields fs

end

/-- The module-level mutable references of one process role:
`rabbitConnection` and `rabbitChannel`.  `none` models the JavaScript value
`null`; `some ()` models a live object reference. -/
structure ConnState where
  rabbitConnection : Option Unit
  rabbitChannel : Option Unit
deriving DecidableEq

/-- Outcome of one attempt to establish a connection, create a channel and
assert the queues (any step failing lands in the surrounding `catch`). -/
inductive ConnectOutcome where
  | ok : ConnectOutcome
  | fail : ConnectOutcome
deriving DecidableEq

/-- Outcome of one transport-level `channel.sendToQueue` call: the client
accepted the message (returned `true`), reported a full internal buffer
(returned a falsy value), or threw. -/
inductive SendOutcome where
  | ok : SendOutcome
  | bufferFull : SendOutcome
  | raiseErr : SendOutcome
deriving DecidableEq

/-- An opaque JavaScript exception. -/
inductive JsError where
  | err : JsError
deriving DecidableEq

/-- One transport-level publish call: queue name, UTF-8 content of the
`Buffer` passed as the body, and the `persistent` option. -/
structure Publish where
  queue : String
  body : String
  persistent : Bool
deriving DecidableEq

/-- Result of the producer's `connectToRabbitMQ` as observed by a caller:
the state of the module references afterwards and the delays of the
`setTimeout(connectToRabbitMQ, _)` timers it scheduled.  The function
catches every internal failure, so it never throws. -/
structure ConnectEffect where
  state : ConnState
  timers : List Nat
deriving DecidableEq

/-- `connectToRabbitMQ` of `src/message-producer/app.js`: on success both
references are set to the fresh connection and channel and the error/close
handlers are installed; on any failure the `catch` block nulls both
references and schedules a reconnect after 5000 ms. -/
def producerConnect : ConnectOutcome → ConnState → ConnectEffect
  | .ok, _ => ⟨⟨some (), some ()⟩, []⟩
  | .fail, _ => ⟨⟨none, none⟩, [5000]⟩

/-- The producer's `rabbitConnection.on("error", ...)` handler: null both
references, schedule one reconnect after 5000 ms. -/
def producerOnError (_s : ConnState) : ConnState × List Nat :=
  (⟨none, none⟩, [5000])

/-- The producer's `rabbitConnection.on("close", ...)` handler: null both
references, schedule one reconnect after 5000 ms. -/
def producerOnClose (_s : ConnState) : ConnState × List Nat :=
  (⟨none, none⟩, [5000])

/-- The backend's `rabbitConnection.on("error", ...)` handler
(`src/backend/server.js`): it only schedules
`setTimeout(() => connectToRabbitMQ(), 5000)`; the references are left
unchanged. -/
def backendOnError (s : ConnState) : ConnState × List Nat :=
  (s, [5000])

/-- The backend's `rabbitConnection.on("close", ...)` handler: schedules a
reconnect after 5000 ms, references left unchanged. -/
def backendOnClose (s : ConnState) : ConnState × List Nat :=
  (s, [5000])

/-- Everything a call to a `sendToQueue` function did: the boolean it
returned, how many times it invoked `connectToRabbitMQ` synchronously, the
transport publish calls it made, the final state of the module references,
and the delays of the timers it scheduled. -/
structure SendEffect where
  result : Bool
  connectCalls : Nat
  publishes : List Publish
  state : ConnState
  timers : List Nat
deriving DecidableEq

/-- `sendToQueue(queue, message)` of `src/message-producer/app.js`.  The
whole body is wrapped in `try`/`catch`; the only statement that can throw
inside the `try` is the transport send (`connectToRabbitMQ` catches its own
failures and `JSON.stringify` is total on the modelled values), so the
`SendOutcome.raiseErr` branch is the `catch` block: null both references,
schedule a reconnect after 5000 ms, return `false`.  The `Except` codomain
records what the caller observes; an `Except.error` would be an exception
propagating out. -/
def sendToQueueP (cOut : ConnectOutcome) (sOut : SendOutcome) (queue : String)
    (msg : Json) (s : ConnState) : Except JsError SendEffect :=
  let reconnected :=
    if s.rabbitChannel = none then
      let ce := producerConnect cOut s
      (ce.state, 1, ce.timers)
    else (s, 0, ([] : List Nat))
  let s1 := reconnected.1
  let calls := reconnected.2.1
  let t1 := reconnected.2.2
  if s1.rabbitChannel = none then
    .ok ⟨false, calls, [], s1, t1⟩
  else
    let pub : Publish := ⟨queue, Json.stringify msg, true⟩
    match sOut with
    | .ok => .ok ⟨true, calls, [pub], s1, t1⟩
    | .bufferFull => .ok ⟨false, calls, [pub], s1, t1⟩
    | .raiseErr => .ok ⟨false, calls, [pub], ⟨none, none⟩, t1 ++ [5000]⟩

/-- `sendToQueue(queue, message)` of `src/backend/server.js`.  With no live
channel it returns `false` immediately (no reconnect attempt).  Its `catch`
block only logs and returns `false`: the references are left unchanged and
no timer is scheduled. -/
def sendToQueueB (sOut : SendOutcome) (queue : String) (msg : Json)
    (s : ConnState) : Except JsError SendEffect :=
  if s.rabbitChannel = none then
    .ok ⟨false, 0, [], s, []⟩
  else
    let pub : Publish := ⟨queue, Json.stringify msg, true⟩
    match sOut with
    | .ok => .ok ⟨true, 0, [pub], s, []⟩
    | .bufferFull => .ok ⟨false, 0, [pub], s, []⟩
    | .raiseErr => .ok ⟨false, 0, [pub], s, []⟩

/-- Extract the effect from a `sendToQueue` result (both modelled functions
always return `Except.ok`; the default is never used). -/
def effOf (x : Except JsError SendEffect) : SendEffect :=
  x.toOption.getD ⟨false, 0, [], ⟨none, none⟩, []⟩

/-- Result of the backend's bounded `connectToRabbitMQ(retries, delay)`:
the number of attempts made, the delays waited between failed attempts, and
the `{ connection, channel }` pair it returns. -/
structure BConnectResult where
  attempts : Nat
  waits : List Nat
  connection : Option Unit
  channel : Option Unit
deriving DecidableEq

/-- One attempt of the backend loop body (`amqp.connect`, `createChannel`,
the two `assertQueue` calls); any failure throws into the per-attempt
`catch`. -/
def amqpAttempt : ConnectOutcome → Except JsError Unit
  | .ok => .ok ()
  | .fail => .error .err

/-- The attempt loop of the backend's `connectToRabbitMQ`
(`src/backend/server.js`): `fuel` is the number of attempts remaining,
`done` the number already made, and `o n` the outcome of the `n`-th
attempt.  On success the module references are set and the pair is
returned; after a failure the loop waits `delay` ms if attempts remain;
after the final failure it returns `{ connection: null, channel: null }`
instead of rethrowing. -/
def backendConnectGo (o : Nat → ConnectOutcome) (delay : Nat) :
    Nat → Nat → BConnectResult
  | 0, done => ⟨done, [], none, none⟩
  | fuel + 1, done =>
    match amqpAttempt (o (done + 1)) with
    | .ok _ => ⟨done + 1, [], some (), some ()⟩
    | .error _ =>
      if fuel = 0 then ⟨done + 1, [], none, none⟩
      else
        let rest := backendConnectGo o delay fuel (done + 1)
        ⟨rest.attempts, delay :: rest.waits, rest.connection, rest.channel⟩

/-- `connectToRabbitMQ()` of `src/backend/server.js` with its default
arguments `retries = 5`, `delay = 5000`. -/
def backendConnect (o : Nat → ConnectOutcome) : BConnectResult :=
  backendConnectGo o 5000 5 0

/-- The events of the producer process that touch the module references,
as enumerated at their source sites in `src/message-producer/app.js`:
a completed successful connect, a failed connect (its `catch` block), the
`error` and `close` handlers, and the `catch` block of `sendToQueue`.
Each of these runs as one synchronous block over the references. -/
inductive ProdEvent where
  | connectOk : ProdEvent
  | connectFail : ProdEvent
  | errSignal : ProdEvent
  | closeSignal : ProdEvent
  | sendExc : ProdEvent
deriving DecidableEq

/-- Effect of one producer event on the module references. -/
def prodStep : ProdEvent → ConnState → ConnState
  | .connectOk, s => (producerConnect .ok s).state
  | .connectFail, s => (producerConnect .fail s).state
  | .errSignal, s => (producerOnError s).1
  | .closeSignal, s => (producerOnClose s).1
  | .sendExc, _ => ⟨none, none⟩

/-- States of the producer's references reachable from process start
(both references initialised to `null`) under the events above. -/
inductive ProdReachable : ConnState → Prop
  | init : ProdReachable ⟨none, none⟩
  | step (e : ProdEvent) {s : ConnState} :
      ProdReachable s → ProdReachable (prodStep e s)

/-- Modelled from the spec: what the registered handler does when invoked
on a successfully deserialized payload — it completes without error, or it
raises a domain error (e.g. the downstream record update failed). -/
inductive HandlerOutcome where
  | success : HandlerOutcome
  | domainError : HandlerOutcome
deriving DecidableEq

/-- Modelled from the spec: the message-consumer service referenced by
`docker-compose.yml` and the README is not among the repository's source
files, so the consumer's acknowledgment policy is taken from the spec's
words (section 4.3).  An envelope carries the result of deserializing its
payload (`none` when the payload is malformed) and the outcome the handler
would produce if invoked. -/
structure Envelope where
  payload : Option Json
  outcome : HandlerOutcome

/-- The three acknowledgment decisions a consumer can take on a received
envelope. -/
inductive Decision where
  | ack : Decision
  | nackRequeue : Decision
  | nackDrop : Decision
deriving DecidableEq

/-- Modelled from the spec: dispatch of one received envelope.  An
unparseable payload is negative-acknowledged without requeue; otherwise the
handler runs, and its success leads to an acknowledge while a domain error
leads to a negative-acknowledge with requeue. -/
def consumeOne (e : Envelope) : Decision :=
  match e.payload with
  | none => .nackDrop
  | some _ =>
    match e.outcome with
    | .success => .ack
    | .domainError => .nackRequeue

/-- Modelled from the spec: the consumer keeps receiving envelopes one at a
time; each is dispatched independently of the decisions taken on earlier
ones. -/
def consumeAll (es : List Envelope) : List Decision :=
  es.map consumeOne

/-- JavaScript truthiness of a string field: falsy exactly when empty. -/
def jsTruthyS (s : String) : Bool :=
  s ≠ ""

/-- JavaScript truthiness of a numeric field: falsy exactly when zero. -/
def jsTruthyN (n : Nat) : Bool :=
  n ≠ 0

/-- The expression `imageUrl || null`: a missing or empty string becomes
`null`. -/
def jsOrNull : Option String → Option String
  | some s => if s = "" then none else some s
  | none => none

/-- The SQL predicate `? != ?` on two nullable string bindings under SQL
three-valued logic: the comparison is TRUE only when both operands are
non-NULL and differ; any NULL operand makes it UNKNOWN, which a `CASE WHEN`
treats like FALSE. -/
def sqlNeq : Option String → Option String → Bool
  | some a, some b => a ≠ b
  | _, _ => false

/-- The JavaScript strict inequality `imageUrl !== oldImageUrl` on a
string-or-null value. -/
def jsNeq (a b : Option String) : Bool :=
  a ≠ b

/-- The request body fields read by the game create/update handlers. -/
structure GameReq where
  title : String
  platformId : Nat
  genreId : Nat
  developer : String
  releaseYear : Nat
  yearCategory : String
  description : String
  imageUrl : Option String
deriving DecidableEq

/-- The handlers' required-field check
`if (!title || !platformId || ...)`: every field except `imageUrl` must be
truthy. -/
def reqValid (r : GameReq) : Bool :=
  jsTruthyS r.title && jsTruthyN r.platformId && jsTruthyN r.genreId &&
    jsTruthyS r.developer && jsTruthyN r.releaseYear &&
    jsTruthyS r.yearCategory && jsTruthyS r.description

/-- A row of the `games` table as touched by the backend handlers. -/
structure GameRow where
  id : Nat
  title : String
  platform_id : Nat
  genre_id : Nat
  developer : String
  release_year : Nat
  year_category : String
  description : String
  image_url : Option String
  processing_status : String
  metadata_status : String
deriving DecidableEq

/-- A nullable string as a JSON value. -/
def optJson : Option String → Json
  | some s => .str s
  | none => .null

/-- The `image_processing` payload `{ gameId, imageUrl: imageUrl || null }`
built by the backend handlers. -/
def imagePayload (gameId : Nat) (url : Option String) : Json :=
  .obj [("gameId", .num gameId), ("imageUrl", optJson url)]

/-- The `metadata_enrichment` payload `{ gameId, title, developer }` built
by the create handler. -/
def metadataPayload (gameId : Nat) (title developer : String) : Json :=
  .obj [("gameId", .num gameId), ("title", .str title),
    ("developer", .str developer)]

/-- Publishes actually performed by one backend `sendToQueue` call. -/
def bPublishes (sOut : SendOutcome) (queue : String) (msg : Json)
    (s : ConnState) : List Publish :=
  (effOf (sendToQueueB sOut queue msg s)).publishes

/-- What `POST /api/games` did: the HTTP status, the row inserted (if
any), the transport publishes performed, and the `id` and
`processingStatus` fields of the JSON response. -/
structure PostEffect where
  status : Nat
  inserted : Option GameRow
  publishes : List Publish
  respId : Option Nat
  respProcessingStatus : Option String
deriving DecidableEq

/-- The `POST /api/games` handler of `src/backend/server.js` (database
available, queries succeeding): validate the fields, check the platform
and genre, insert the row with `processing_status` and `metadata_status`
both `'pending'`, then — only if the new id is truthy and `rabbitChannel`
is non-null — fire the two `sendToQueue` calls, whose boolean results are
not even awaited; finally respond `201` with the new id and
`processingStatus: "pending"` regardless of what the sends did. -/
def postGames (r : GameReq) (platformExists genreExists : Bool)
    (insertId : Nat) (s : ConnState) (o1 o2 : SendOutcome) : PostEffect :=
  if ¬reqValid r then ⟨400, none, [], none, none⟩
  else if ¬platformExists then ⟨400, none, [], none, none⟩
  else if ¬genreExists then ⟨400, none, [], none, none⟩
  else
    let row : GameRow :=
      ⟨insertId, r.title, r.platformId, r.genreId, r.developer,
        r.releaseYear, r.yearCategory, r.description, jsOrNull r.imageUrl,
        "pending", "pending"⟩
    let pubs :=
      if jsTruthyN insertId && s.rabbitChannel.isSome then
        bPublishes o1 "image_processing"
            (imagePayload insertId (jsOrNull r.imageUrl)) s ++
          bPublishes o2 "metadata_enrichment"
            (metadataPayload insertId r.title r.developer) s
      else []
    ⟨201, some row, pubs, some insertId, some "pending"⟩

/-- What `PUT /api/games/:id` did: the HTTP status, the updated row as
stored (if the update ran), the transport publishes performed, and the
`processingStatus` field of the JSON response. -/
structure PutEffect where
  status : Nat
  stored : Option GameRow
  publishes : List Publish
  respProcessingStatus : Option String
deriving DecidableEq

/-- The `PUT /api/games/:id` handler of `src/backend/server.js` (database
available, queries succeeding).  The UPDATE statement writes every
submitted field and sets
`processing_status = CASE WHEN ? != ? THEN 'pending' ELSE processing_status END`
with the raw `imageUrl` and the previously stored `image_url` as the two
bindings, so the reset follows SQL three-valued `!=`; the subsequent
enqueue is guarded by the JavaScript test
`imageUrl !== oldImageUrl && rabbitChannel`; the response reports
`processingStatus` as `'pending'` or `'completed'` from the JavaScript
test alone. -/
def putGame (r : GameReq) (gameId : Nat) (gameExists : Bool)
    (oldImageUrl : Option String) (oldStatus oldMetaStatus : String)
    (platformExists genreExists : Bool) (s : ConnState)
    (o1 : SendOutcome) : PutEffect :=
  if ¬reqValid r then ⟨400, none, [], none⟩
  else if ¬gameExists then ⟨404, none, [], none⟩
  else if ¬platformExists then ⟨400, none, [], none⟩
  else if ¬genreExists then ⟨400, none, [], none⟩
  else
    let newStatus := if sqlNeq r.imageUrl oldImageUrl then "pending" else oldStatus
    let row : GameRow :=
      ⟨gameId, r.title, r.platformId, r.genreId, r.developer,
        r.releaseYear, r.yearCategory, r.description, jsOrNull r.imageUrl,
        newStatus, oldMetaStatus⟩
    let pubs :=
      if jsNeq r.imageUrl oldImageUrl && s.rabbitChannel.isSome then
        bPublishes o1 "image_processing"
          (imagePayload gameId (jsOrNull r.imageUrl)) s
      else []
    let respStatus := if jsNeq r.imageUrl oldImageUrl then "pending" else "completed"
    ⟨200, some row, pubs, some respStatus⟩

/-- The request used to exhibit the PUT divergence: a valid update whose
submitted `imageUrl` is a fresh URL. -/
def putNullCaseReq : GameReq :=
  ⟨"Pac-Man", 1, 2, "Namco", 1980, "1980s", "Maze chase", some "http://example.com/new.png"⟩

/-- The PUT handler evaluated on a game whose stored `image_url` is NULL
and whose stored `processing_status` is `'completed'`, with a live channel
and an accepting transport. -/
def putNullCase : PutEffect :=
  putGame putNullCaseReq 7 true none "completed" "completed" true true
    ⟨some (), some ()⟩ .ok

/-- Attempts made by `backendConnectGo` never exceed the remaining fuel. -/
theorem backendConnectGo_attempts_le (o : Nat → ConnectOutcome) (delay : Nat) :
    ∀ fuel done, (backendConnectGo o delay fuel done).attempts ≤ done + fuel := by
  intro fuel
  induction fuel with
  | zero => intro done; simp [backendConnectGo]
  | succ n ih =>
    intro done
    simp only [backendConnectGo]
    cases o (done + 1) with
    | ok => simp [amqpAttempt]
    | fail =>
      simp only [amqpAttempt]
      by_cases hn : n = 0
      · simp [hn]
      · have := ih (done + 1)
        simp only [hn, if_false]
        omega

/-- C1 (counterexample): the claim states that a `sendToQueue` call made
with no live channel invokes `connectToRabbitMQ` exactly once within the
call; the backend's `sendToQueue`, called with both references null,
makes zero connect attempts. -/
theorem backend_send_no_reconnect_cex :
    (effOf (sendToQueueB .ok "game_events" Json.null ⟨none, none⟩)).connectCalls ≠ 1 := by
  decide

/-- C1 (amended): when the producer's `sendToQueue` runs with no live
channel it calls `connectToRabbitMQ` exactly once within the call, and if
the reconnect fails it returns `false` without throwing, having published
nothing, with one 5000 ms retry timer scheduled by the failed connect; the
backend's `sendToQueue`, by contrast, makes no connect attempt at all and
returns `false` immediately. -/
theorem send_reconnect_once_amended :
    ∀ (cOut : ConnectOutcome) (sOut : SendOutcome) (q : String) (msg : Json)
      (s t : ConnState),
      s.rabbitChannel = none → t.rabbitChannel = none →
      (effOf (sendToQueueP cOut sOut q msg s)).connectCalls = 1 ∧
      (cOut = .fail →
        sendToQueueP cOut sOut q msg s = .ok ⟨false, 1, [], ⟨none, none⟩, [5000]⟩) ∧
      sendToQueueB sOut q msg t = .ok ⟨false, 0, [], t, []⟩ := by
  intro cOut sOut q msg s t hs ht
  refine ⟨?_, ?_, ?_⟩
  · cases cOut <;> cases sOut <;>
      simp [sendToQueueP, producerConnect, effOf, Except.toOption, hs]
  · rintro rfl
    simp [sendToQueueP, producerConnect, hs]
  · simp [sendToQueueB, ht]

/-- C1 (witness): a producer `sendToQueue` on null references whose
reconnect fails returns `false` with exactly one connect call. -/
theorem send_reconnect_once_amended_witness :
    sendToQueueP .fail .ok "game_events" Json.null ⟨none, none⟩ =
      .ok ⟨false, 1, [], ⟨none, none⟩, [5000]⟩ :=
  (send_reconnect_once_amended .fail .ok "game_events" Json.null
    ⟨none, none⟩ ⟨none, none⟩ rfl rfl).2.1 rfl

/-- C2 (counterexample): the claim states that in every process role the
`error`/`close` handlers set both references to null; the backend's
`error` handler, run on live references, leaves the channel reference
non-null. -/
theorem backend_handler_keeps_refs_cex :
    (backendOnError ⟨some (), some ()⟩).1.rabbitChannel ≠ none := by
  decide

/-- C2 (amended): the producer's `error` and `close` handlers set both
references to null and schedule one reconnect after 5000 ms; the backend's
`error` and `close` handlers schedule one reconnect after 5000 ms but
leave both references unchanged. -/
theorem signal_handlers_amended :
    ∀ s t : ConnState,
      producerOnError s = (⟨none, none⟩, [5000]) ∧
      producerOnClose s = (⟨none, none⟩, [5000]) ∧
      backendOnError t = (t, [5000]) ∧
      backendOnClose t = (t, [5000]) := by
  intro s t
  exact ⟨rfl, rfl, rfl, rfl⟩

/-- C3 (counterexample): the claim states that a transport exception
during send makes the publisher null both references and schedule a
reconnect; the backend's `sendToQueue`, when the transport throws, leaves
the channel reference non-null and schedules no timer. -/
theorem backend_catch_keeps_state_cex :
    (effOf (sendToQueueB .raiseErr "game_events" Json.null ⟨some (), some ()⟩)).state.rabbitChannel ≠ none ∧
    (effOf (sendToQueueB .raiseErr "game_events" Json.null ⟨some (), some ()⟩)).timers = [] := by
  constructor
  · decide
  · decide

/-- C3 (amended): when the transport send throws on a live channel, the
producer's `sendToQueue` nulls both references, schedules one reconnect
after 5000 ms and returns `false`; the backend's `sendToQueue` returns
`false` but leaves the references unchanged and schedules nothing. -/
theorem send_exception_amended :
    ∀ (cOut : ConnectOutcome) (q : String) (msg : Json) (s t : ConnState),
      s.rabbitChannel = some () → t.rabbitChannel = some () →
      sendToQueueP cOut .raiseErr q msg s =
        .ok ⟨false, 0, [⟨q, Json.stringify msg, true⟩], ⟨none, none⟩, [5000]⟩ ∧
      sendToQueueB .raiseErr q msg t =
        .ok ⟨false, 0, [⟨q, Json.stringify msg, true⟩], t, []⟩ := by
  intro cOut q msg s t hs ht
  constructor
  · simp [sendToQueueP, hs]
  · simp [sendToQueueB, ht]

/-- C3 (witness): exception during a producer send on live references. -/
theorem send_exception_amended_witness :
    sendToQueueP .ok .raiseErr "game_events" Json.null ⟨some (), some ()⟩ =
      .ok ⟨false, 0, [⟨"game_events", "null", true⟩], ⟨none, none⟩, [5000]⟩ :=
  (send_exception_amended .ok "game_events" Json.null
    ⟨some (), some ()⟩ ⟨some (), some ()⟩ rfl rfl).1

/-- C4: neither `sendToQueue` ever propagates an exception to its caller —
every outcome is returned as a boolean — and the returned boolean is
`true` only when the transport accepted the message (a publish was made
and the transport call returned a truthy value). -/
theorem send_never_throws :
    ∀ (cOut : ConnectOutcome) (sOut : SendOutcome) (q : String) (msg : Json)
      (s t : ConnState),
      (sendToQueueP cOut sOut q msg s).isOk = true ∧
      (sendToQueueB sOut q msg t).isOk = true ∧
      ((effOf (sendToQueueP cOut sOut q msg s)).result = true →
        sOut = .ok ∧ (effOf (sendToQueueP cOut sOut q msg s)).publishes ≠ []) ∧
      ((effOf (sendToQueueB sOut q msg t)).result = true →
        sOut = .ok ∧ (effOf (sendToQueueB sOut q msg t)).publishes ≠ []) := by
  intro cOut sOut q msg s t
  obtain ⟨sc, sh⟩ := s
  obtain ⟨tc, th⟩ := t
  cases sh <;> cases th <;> cases cOut <;> cases sOut <;>
    simp [sendToQueueP, sendToQueueB, producerConnect, effOf, Except.isOk,
      Except.toBool, Except.toOption]

/-- C4 (witness): a successful producer send returns `true` with the
publish performed. -/
theorem send_never_throws_witness :
    SendOutcome.ok = SendOutcome.ok ∧
    (effOf (sendToQueueP .ok .ok "game_events" Json.null ⟨some (), some ()⟩)).publishes ≠ [] :=
  (send_never_throws .ok .ok "game_events" Json.null
    ⟨some (), some ()⟩ ⟨some (), some ()⟩).2.2.1 rfl

/-- C5: on a live channel both `sendToQueue` functions hand the transport
exactly one publish whose body is the JSON serialization of the payload,
addressed to the given queue with `persistent = true`; and when the
transport reports a full internal buffer (a falsy return) the call returns
`false` instead of blocking or retrying. -/
theorem send_serializes_persistent_backpressure :
    ∀ (cOut : ConnectOutcome) (sOut : SendOutcome) (q : String) (msg : Json)
      (s t : ConnState),
      s.rabbitChannel = some () → t.rabbitChannel = some () →
      (effOf (sendToQueueP cOut sOut q msg s)).publishes =
        [⟨q, Json.stringify msg, true⟩] ∧
      (effOf (sendToQueueB sOut q msg t)).publishes =
        [⟨q, Json.stringify msg, true⟩] ∧
      (sOut = .bufferFull →
        (effOf (sendToQueueP cOut sOut q msg s)).result = false ∧
        (effOf (sendToQueueB sOut q msg t)).result = false) := by
  intro cOut sOut q msg s t hs ht
  refine ⟨?_, ?_, ?_⟩
  · cases sOut <;>
      simp [sendToQueueP, effOf, Except.toOption, hs]
  · cases sOut <;>
      simp [sendToQueueB, effOf, Except.toOption, ht]
  · rintro rfl
    constructor
    · simp [sendToQueueP, effOf, Except.toOption, hs]
    · simp [sendToQueueB, effOf, Except.toOption, ht]

/-- C5 (witness): publishing `{"gameId":42}` on a live channel carries the
serialized body, the queue name and the persistent flag, and a
backpressure signal yields `false`. -/
theorem send_serializes_witness :
    (effOf (sendToQueueP .ok .bufferFull "game_events"
        (Json.obj [("gameId", Json.num 42)]) ⟨some (), some ()⟩)).publishes =
      [⟨"game_events", "\x7b\"gameId\":42\x7d", true⟩] ∧
    (effOf (sendToQueueP .ok .bufferFull "game_events"
        (Json.obj [("gameId", Json.num 42)]) ⟨some (), some ()⟩)).result = false :=
  ⟨(send_serializes_persistent_backpressure .ok .bufferFull "game_events"
      (Json.obj [("gameId", Json.num 42)]) ⟨some (), some ()⟩ ⟨some (), some ()⟩
      rfl rfl).1,
    ((send_serializes_persistent_backpressure .ok .bufferFull "game_events"
      (Json.obj [("gameId", Json.num 42)]) ⟨some (), some ()⟩ ⟨some (), some ()⟩
      rfl rfl).2.2 rfl).1⟩

/-- C6: for every received envelope the consumer acknowledges when the
handler completes, negative-acknowledges with requeue when the handler
raises a domain error, and negative-acknowledges without requeue when the
payload cannot be deserialized; a poison message does not block the
processing of the envelopes around it. -/
theorem consumer_ack_policy :
    ∀ (e : Envelope) (j : Json) (pre post : List Envelope),
      (e.payload = none → consumeOne e = .nackDrop) ∧
      (e.payload = some j → e.outcome = .success → consumeOne e = .ack) ∧
      (e.payload = some j → e.outcome = .domainError →
        consumeOne e = .nackRequeue) ∧
      consumeAll (pre ++ e :: post) =
        consumeAll pre ++ consumeOne e :: consumeAll post := by
  intro e j pre post
  obtain ⟨p, o⟩ := e
  refine ⟨?_, ?_, ?_, ?_⟩
  · rintro rfl; rfl
  · rintro rfl rfl; rfl
  · rintro rfl rfl; rfl
  · simp [consumeAll]

/-- C6 (witness): a poison envelope between two valid ones is dropped
without requeue while both neighbours are still dispatched. -/
theorem consumer_ack_policy_witness :
    consumeOne ⟨none, .success⟩ = .nackDrop ∧
    consumeAll ([⟨some Json.null, .success⟩] ++ ⟨none, .success⟩ ::
        [⟨some Json.null, .domainError⟩]) =
      consumeAll [⟨some Json.null, .success⟩] ++ consumeOne ⟨none, .success⟩ ::
        consumeAll [⟨some Json.null, .domainError⟩] :=
  ⟨(consumer_ack_policy ⟨none, .success⟩ Json.null [⟨some Json.null, .success⟩]
      [⟨some Json.null, .domainError⟩]).1 rfl,
    (consumer_ack_policy ⟨none, .success⟩ Json.null [⟨some Json.null, .success⟩]
      [⟨some Json.null, .domainError⟩]).2.2.2⟩

/-- C7: the backend's startup `connectToRabbitMQ` makes at most 5
attempts; when every attempt fails it makes exactly 5, waits 5000 ms
between consecutive failed attempts (four waits), and returns
`{ connection: null, channel: null }` instead of throwing. -/
theorem backend_startup_bounded :
    ∀ o : Nat → ConnectOutcome,
      (backendConnect o).attempts ≤ 5 ∧
      ((∀ i, o i = .fail) →
        backendConnect o = ⟨5, [5000, 5000, 5000, 5000], none, none⟩) := by
  intro o
  constructor
  · exact backendConnectGo_attempts_le o 5000 5 0
  · intro h
    simp [backendConnect, backendConnectGo, amqpAttempt, h]

/-- C7 (witness): five straight failures leave the backend in degraded
mode with null references after four 5-second waits. -/
theorem backend_startup_bounded_witness :
    backendConnect (fun _ => ConnectOutcome.fail) =
      ⟨5, [5000, 5000, 5000, 5000], none, none⟩ :=
  (backend_startup_bounded (fun _ => ConnectOutcome.fail)).2 (fun _ => rfl)

/-- C8: a valid `POST /api/games` (existing platform and genre) inserts
the row with `processing_status = 'pending'` and responds `201` with the
new id and `processingStatus: "pending"` for every broker state and every
transport outcome — a null channel or a failed enqueue neither fails the
request nor rolls back the insert. -/
theorem post_games_broker_independent :
    ∀ (r : GameReq) (insertId : Nat) (s : ConnState) (o1 o2 : SendOutcome),
      reqValid r = true →
      (postGames r true true insertId s o1 o2).status = 201 ∧
      (postGames r true true insertId s o1 o2).inserted =
        some ⟨insertId, r.title, r.platformId, r.genreId, r.developer,
          r.releaseYear, r.yearCategory, r.description, jsOrNull r.imageUrl,
          "pending", "pending"⟩ ∧
      (postGames r true true insertId s o1 o2).respId = some insertId ∧
      (postGames r true true insertId s o1 o2).respProcessingStatus =
        some "pending" := by
  intro r insertId s o1 o2 h
  simp [postGames, h]

/-- C8 (witness): a valid create with the broker down (both references
null) still inserts and still answers `201` with the id and a pending
status. -/
theorem post_games_broker_independent_witness :
    (postGames ⟨"Pac-Man", 1, 2, "Namco", 1980, "1980s", "Maze chase", none⟩
        true true 7 ⟨none, none⟩ .ok .ok).status = 201 ∧
    (postGames ⟨"Pac-Man", 1, 2, "Namco", 1980, "1980s", "Maze chase", none⟩
        true true 7 ⟨none, none⟩ .ok .ok).inserted =
      some ⟨7, "Pac-Man", 1, 2, "Namco", 1980, "1980s", "Maze chase", none,
        "pending", "pending"⟩ ∧
    (postGames ⟨"Pac-Man", 1, 2, "Namco", 1980, "1980s", "Maze chase", none⟩
        true true 7 ⟨none, none⟩ .ok .ok).respId = some 7 ∧
    (postGames ⟨"Pac-Man", 1, 2, "Namco", 1980, "1980s", "Maze chase", none⟩
        true true 7 ⟨none, none⟩ .ok .ok).respProcessingStatus =
      some "pending" :=
  post_games_broker_independent
    ⟨"Pac-Man", 1, 2, "Namco", 1980, "1980s", "Maze chase", none⟩
    7 ⟨none, none⟩ .ok .ok rfl

/-- C9: the code evaluated at the failing input.  Updating a game whose
stored `image_url` is NULL with a fresh URL (live channel, accepting
transport) leaves the stored `processing_status` at `'completed'` —
because the SQL binding comparison `'http://...' != NULL` is UNKNOWN, so
the `CASE` keeps the old status — while the JavaScript
`imageUrl !== oldImageUrl` test still enqueues the `image_processing`
message and makes the response report `processingStatus: "pending"`. -/
theorem put_game_null_old_image_divergence :
    putNullCase.stored =
      some ⟨7, "Pac-Man", 1, 2, "Namco", 1980, "1980s", "Maze chase",
        some "http://example.com/new.png", "completed", "completed"⟩ ∧
    putNullCase.publishes ≠ [] ∧
    putNullCase.respProcessingStatus = some "pending" := by
  refine ⟨rfl, ?_, rfl⟩
  intro h
  simp [putNullCase, putGame, putNullCaseReq, reqValid, jsTruthyS, jsTruthyN,
    jsNeq, bPublishes, sendToQueueB, effOf, Except.toOption] at h

/-- C10: every producer event that touches the module references updates
connection and channel together — each post-state has both references set
or both null — and consequently every state reachable from process start
has a non-null channel only if the connection is non-null. -/
theorem producer_refs_invariant :
    (∀ (e : ProdEvent) (s : ConnState),
      ((prodStep e s).rabbitConnection = none ↔
        (prodStep e s).rabbitChannel = none)) ∧
    ∀ s : ConnState, ProdReachable s →
      s.rabbitChannel ≠ none → s.rabbitConnection ≠ none := by
  constructor
  · intro e s
    cases e <;>
      simp [prodStep, producerConnect, producerOnError, producerOnClose]
  · intro s h
    induction h with
    | init => intro hch; exact absurd rfl hch
    | step e h ih =>
      cases e <;>
        simp [prodStep, producerConnect, producerOnError, producerOnClose]

/-- C10 (witness): the state after a successful connect is reachable,
has a live channel, and the theorem yields that its connection is
live. -/
theorem producer_refs_invariant_witness :
    (⟨some (), some ()⟩ : ConnState).rabbitConnection ≠ none :=
  producer_refs_invariant.2 ⟨some (), some ()⟩
    (ProdReachable.step .connectOk ProdReachable.init) (by simp)
